import Mathlib

/-!
Verification of the ProvStore API wrapper (`wrapper.py`).

The wrapper is a small HTTP client: an `Api` object holding three
configuration fields, one low-level `request` primitive, and five public
operations (`submit_document`, `get_document`, `get_document_meta`,
`add_bundle`, `delete_document`).  The embedding below models Python
values (`PyVal`), JSON values (`Json`), the external `json` module
(`json_loads` / `json_dumps`), the external `prov.model.ProvBundle`
class, and the HTTP transport (`urllib2.urlopen`) as an explicit
function parameter, so that every operation is an executable Lean
function of its inputs and of the transport's behaviour.
-/

/-! ## JSON values

Model of the value universe produced by Python's `json.loads` and
consumed by `json.dumps`.  Lists and objects are given by mutually
inductive spine types so that mutual structural recursion and induction
are straightforward. -/

mutual

inductive Json where
  | null : Json
  | bool (b : Bool) : Json
  | num (n : Int) : Json
  | str (s : String) : Json
  | arr (elems : JsonList) : Json
  | obj (fields : JsonFields) : Json

inductive JsonList where
  | nil : JsonList
  | cons (head : Json) (tail : JsonList) : JsonList

inductive JsonFields where
  | nil : JsonFields
  | cons (key : String) (value : Json) (tail : JsonFields) : JsonFields

end

/-- Lookup of a key in a decoded JSON object.  Python's `json.loads`
builds a `dict`, where a duplicated key keeps the value written last, so
the lookup prefers the rightmost occurrence. -/
def JsonFields.lookup : JsonFields → String → Option Json
  | .nil, _ => none
  | .cons k v rest, key =>
    match JsonFields.lookup rest key with
    | some v' => some v'
    | none => if k == key then some v else none

/-- Escaping of one character inside a JSON string literal, as performed
by the external `json.dumps` (model: the common escapes only). -/
def escapeChar (c : Char) : String :=
  if c == '"' then "\\\""
  else if c == '\\' then "\\\\"
  else if c == '\n' then "\\n"
  else if c == '\t' then "\\t"
  else if c == '\r' then "\\r"
  else String.mk [c]

/-- Escaping of a whole string for a JSON string literal. -/
def escapeString (s : String) : String :=
  String.join (s.data.map escapeChar)

mutual

/-- Serialization of a JSON value to text.  Models the output format of
Python's `json.dumps` (default separators: comma-space between items,
colon-space after keys). -/
def Json.render : Json → String
  | .null => "null"
  | .bool b => if b then "true" else "false"
  | .num n => toString n
  | .str s => "\"" ++ escapeString s ++ "\""
  | .arr xs => "[" ++ JsonList.renderItems xs ++ "]"
  | .obj fs => "\x7b" ++ JsonFields.renderFields fs ++ "\x7d"

/-- Serialization of the items of a JSON array, comma-separated. -/
def JsonList.renderItems : JsonList → String
  | .nil => ""
  | .cons x .nil => Json.render x
  | .cons x (.cons y t) =>
    Json.render x ++ ", " ++ JsonList.renderItems (.cons y t)

/-- Serialization of the fields of a JSON object, comma-separated. -/
def JsonFields.renderFields : JsonFields → String
  | .nil => ""
  | .cons k v .nil => "\"" ++ escapeString k ++ "\": " ++ Json.render v
  | .cons k v (.cons k2 v2 t) =>
    "\"" ++ escapeString k ++ "\": " ++ Json.render v ++ ", "
      ++ JsonFields.renderFields (.cons k2 v2 t)

end

/-- Whether a character is JSON whitespace. -/
def isWsChar : Char → Bool
  | ' ' => true
  | '\t' => true
  | '\n' => true
  | '\r' => true
  | _ => false

/-- Whitespace skipping for the JSON reader. -/
def skipWs : List Char → List Char
  | [] => []
  | c :: rest => if isWsChar c then skipWs rest else c :: rest

/-- Escape table of the JSON reader: the escaped character after the
backslash and the character it denotes (model: the common escapes only;
unsupported escapes make the read fail). -/
def escapeTable : List (Char × Char) :=
  [('"', '"'), ('\\', '\\'), ('/', '/'), ('n', '\n'), ('t', '\t'), ('r', '\r')]

/-- Unescaping of one escaped character via the escape table. -/
def unescapeChar (c : Char) : Option Char :=
  (escapeTable.find? (fun p => p.1 == c)).map Prod.snd

/-- Reading of a JSON string literal body after the opening quote;
returns the decoded string and the rest of the input. -/
def parseStringBody : List Char → Option (String × List Char)
  | [] => none
  | '"' :: rest => some ("", rest)
  | '\\' :: rest =>
    match rest with
    | [] => none
    | c :: rest2 =>
      match unescapeChar c with
      | some e =>
        (parseStringBody rest2).map (fun p => (String.mk (e :: p.1.data), p.2))
      | none => none
  | c :: rest =>
    (parseStringBody rest).map (fun p => (String.mk (c :: p.1.data), p.2))

/-- Accumulating read of a run of decimal digits. -/
def parseDigitsAux (acc : Nat) : List Char → (Nat × List Char)
  | [] => (acc, [])
  | c :: rest =>
    if c.isDigit then parseDigitsAux (acc * 10 + (c.toNat - 48)) rest
    else (acc, c :: rest)

/-- Reading of an unsigned JSON integer (model restriction: fractional
and exponent forms are not read). -/
def parseNum : List Char → Option (Int × List Char)
  | [] => none
  | c :: rest =>
    if c.isDigit then
      match parseDigitsAux (c.toNat - 48) rest with
      | (n, r) =>
        match r with
        | '.' :: _ => none
        | 'e' :: _ => none
        | 'E' :: _ => none
        | _ => some ((n : Int), r)
    else none

mutual

/-- Reading of one JSON value (fuel-bounded recursive-descent reader,
modelling the external `json.loads`). -/
def parseValue : Nat → List Char → Option (Json × List Char)
  | 0, _ => none
  | fuel + 1, s =>
    match skipWs s with
    | 'n' :: 'u' :: 'l' :: 'l' :: rest => some (.null, rest)
    | 't' :: 'r' :: 'u' :: 'e' :: rest => some (.bool true, rest)
    | 'f' :: 'a' :: 'l' :: 's' :: 'e' :: rest => some (.bool false, rest)
    | '"' :: rest => (parseStringBody rest).map (fun p => (.str p.1, p.2))
    | '[' :: rest => parseArrayItems fuel rest true
    | '\x7b' :: rest => parseObjectFields fuel rest true
    | '-' :: rest => (parseNum rest).map (fun p => (.num (-p.1), p.2))
    | s' => (parseNum s').map (fun p => (.num p.1, p.2))

/-- Reading of the items of a JSON array after the opening bracket. -/
def parseArrayItems : Nat → List Char → Bool → Option (Json × List Char)
  | 0, _, _ => none
  | fuel + 1, s, first =>
    match skipWs s with
    | ']' :: rest => if first then some (.arr .nil, rest) else none
    | s' =>
      match parseValue fuel s' with
      | none => none
      | some (v, r) =>
        match skipWs r with
        | ',' :: r2 =>
          match parseArrayItems fuel r2 false with
          | some (.arr xs, r3) => some (.arr (.cons v xs), r3)
          | _ => none
        | ']' :: r2 => some (.arr (.cons v .nil), r2)
        | _ => none

/-- Reading of the fields of a JSON object after the opening brace. -/
def parseObjectFields : Nat → List Char → Bool → Option (Json × List Char)
  | 0, _, _ => none
  | fuel + 1, s, first =>
    match skipWs s with
    | '\x7d' :: rest => if first then some (.obj .nil, rest) else none
    | '"' :: rest =>
      match parseStringBody rest with
      | none => none
      | some (k, r) =>
        match skipWs r with
        | ':' :: r2 =>
          match parseValue fuel r2 with
          | none => none
          | some (v, r3) =>
            match skipWs r3 with
            | ',' :: r4 =>
              match parseObjectFields fuel r4 false with
              | some (.obj fs, r5) => some (.obj (.cons k v fs), r5)
              | _ => none
            | '\x7d' :: r4 => some (.obj (.cons k v .nil), r4)
            | _ => none
        | _ => none
    | _ => none

end

/-- Model of Python's `json.loads`: reads one JSON value and requires
only whitespace after it; any failure raises a `ValueError`, modelled by
the `Except.error` branch. -/
def json_loads (s : String) : Except String Json :=
  match parseValue (s.length + 1) s.data with
  | some (j, rest) =>
    match skipWs rest with
    | [] => .ok j
    | _ => .error "Extra data"
  | none => .error "No JSON object could be decoded"

/-! ## Provenance documents

Modelled from the spec: the document-exchange format is an external,
versioned JSON container schema (the `prov.model` library); this client
depends on, but does not define, its encode/decode contract.  A
`ProvBundle` is therefore modelled abstractly by the JSON container it
exchanges. -/

/-- Modelled from the spec: a provenance document of the external
`prov.model` library, represented by its canonical JSON container. -/
structure ProvBundle where
  container : Json

/-- Modelled from the spec: `ProvBundle._encode_JSON_container` of the
external `prov.model` library returns the document's canonical JSON
container representation. -/
def ProvBundle._encode_JSON_container (b : ProvBundle) : Json :=
  b.container

/-- Modelled from the spec: `ProvBundle._decode_JSON_container` of the
external `prov.model` library rebuilds a document from its JSON
container (in the source it mutates a freshly constructed `ProvBundle()`;
here it returns the resulting bundle). -/
def ProvBundle._decode_JSON_container (j : Json) : ProvBundle :=
  ProvBundle.mk j

/-! ## Python values

The universe of Python values the wrapper passes around: JSON-native
values plus embedded `ProvBundle` objects.  Floating-point numbers are
outside the model. -/

mutual

inductive PyVal where
  | pyNone : PyVal
  | pyBool (b : Bool) : PyVal
  | pyInt (n : Int) : PyVal
  | pyString (s : String) : PyVal
  | pyList (items : PyItems) : PyVal
  | pyDict (fields : PyFields) : PyVal
  | bundle (b : ProvBundle) : PyVal

inductive PyItems where
  | nil : PyItems
  | cons (head : PyVal) (tail : PyItems) : PyItems

inductive PyFields where
  | nil : PyFields
  | cons (key : String) (value : PyVal) (tail : PyFields) : PyFields

end

/-- Python type name of a value, as used in error messages. -/
def PyVal.typeName : PyVal → String
  | .pyNone => "NoneType"
  | .pyBool _ => "bool"
  | .pyInt _ => "int"
  | .pyString _ => "str"
  | .pyList _ => "list"
  | .pyDict _ => "dict"
  | .bundle _ => "ProvBundle"

/-- Python truthiness of a value (`bool(v)`): `None`, `False`, zero, and
empty containers are falsy; everything else, including any `ProvBundle`
object, is truthy. -/
def pyTruthy : PyVal → Bool
  | .pyNone => false
  | .pyBool b => b
  | .pyInt n => n != 0
  | .pyString s => s != ""
  | .pyList .nil => false
  | .pyList _ => true
  | .pyDict .nil => false
  | .pyDict _ => true
  | .bundle _ => true

/-- Python truthiness of an optional value argument (`None` or a
value). -/
def pyTruthyOptVal : Option PyVal → Bool
  | some v => pyTruthy v
  | none => false

/-- Python truthiness of an optional string (`None` and the empty string
are falsy). -/
def pyTruthyOptStr : Option String → Bool
  | some s => s != ""
  | none => false

/-- Python `"%s"` interpolation of a string-or-`None` value: `None` is
rendered as the text `None`. -/
def pyFmtS : Option String → String
  | some s => s
  | none => "None"

mutual

/-- Python `repr` of a value (model; used by `str` on containers). -/
def PyVal.pyRepr : PyVal → String
  | .pyNone => "None"
  | .pyBool b => if b then "True" else "False"
  | .pyInt n => toString n
  | .pyString s => "'" ++ s ++ "'"
  | .pyList xs => "[" ++ PyItems.reprItems xs ++ "]"
  | .pyDict fs => "\x7b" ++ PyFields.reprFields fs ++ "\x7d"
  | .bundle _ => "<ProvBundle>"

/-- Python `repr` of the items of a list, comma-separated. -/
def PyItems.reprItems : PyItems → String
  | .nil => ""
  | .cons x .nil => PyVal.pyRepr x
  | .cons x (.cons y t) =>
    PyVal.pyRepr x ++ ", " ++ PyItems.reprItems (.cons y t)

/-- Python `repr` of the fields of a dict, comma-separated. -/
def PyFields.reprFields : PyFields → String
  | .nil => ""
  | .cons k v .nil => "'" ++ k ++ "': " ++ PyVal.pyRepr v
  | .cons k v (.cons k2 v2 t) =>
    "'" ++ k ++ "': " ++ PyVal.pyRepr v ++ ", "
      ++ PyFields.reprFields (.cons k2 v2 t)

end

/-- Python `str` of a value: a string is returned verbatim, everything
else falls back to its `repr` (model). -/
def PyVal.pyStr : PyVal → String
  | .pyString s => s
  | v => PyVal.pyRepr v

/-- Python `"%d"` conversion of a value: integers print in decimal;
booleans are integers in Python and print as `1`/`0`; every other type
raises a `TypeError`, modelled by the `Except.error` branch. -/
def pyFormatD : PyVal → Except String String
  | .pyInt n => .ok (toString n)
  | .pyBool b => .ok (if b then "1" else "0")
  | v => .error ("%d format: a number is required, not " ++ v.typeName)

/-! ## Request payload serialization (wrapper.py lines 166-171)

Python's `json.JSONEncoder` walks the payload, encoding JSON-native
values by the standard rules and calling its `default` hook on any other
object; the base hook always raises `TypeError`.  `RequestDataSerializer`
overrides the hook to convert `ProvBundle` objects to their canonical
JSON container. -/

/-- The base `json.JSONEncoder.default` hook: always raises `TypeError`
(modelled by the `Except.error` branch). -/
def JSONEncoder.default (o : PyVal) : Except String Json :=
  .error (o.typeName ++ " is not JSON serializable")

/-- `RequestDataSerializer.default` (wrapper.py lines 167-171): a
`ProvBundle` is converted to its canonical JSON container; any other
non-native object is handed to the base hook, which raises. -/
def RequestDataSerializer.default (o : PyVal) : Except String Json :=
  match o with
  | .bundle b => .ok (b._encode_JSON_container)
  | _ => JSONEncoder.default o

mutual

/-- The encoding walk of `json.dumps`: JSON-native values are encoded by
the standard JSON rules; any other object is handed to the encoder's
`default` hook. -/
def pyToJson (hook : PyVal → Except String Json) : PyVal → Except String Json
  | .pyNone => .ok .null
  | .pyBool b => .ok (.bool b)
  | .pyInt n => .ok (.num n)
  | .pyString s => .ok (.str s)
  | .pyList xs =>
    match pyToJsonItems hook xs with
    | .ok l => .ok (.arr l)
    | .error m => .error m
  | .pyDict fs =>
    match pyToJsonFields hook fs with
    | .ok l => .ok (.obj l)
    | .error m => .error m
  | .bundle b => hook (.bundle b)

/-- Encoding walk over the items of a list. -/
def pyToJsonItems (hook : PyVal → Except String Json) :
    PyItems → Except String JsonList
  | .nil => .ok .nil
  | .cons x t =>
    match pyToJson hook x, pyToJsonItems hook t with
    | .ok j, .ok l => .ok (.cons j l)
    | .error m, _ => .error m
    | _, .error m => .error m

/-- Encoding walk over the fields of a dict. -/
def pyToJsonFields (hook : PyVal → Except String Json) :
    PyFields → Except String JsonFields
  | .nil => .ok .nil
  | .cons k v t =>
    match pyToJson hook v, pyToJsonFields hook t with
    | .ok j, .ok l => .ok (.cons k j l)
    | .error m, _ => .error m
    | _, .error m => .error m

end

/-- Model of `json.dumps(data, cls=RequestDataSerializer)` as used by
`Api.request` (wrapper.py line 81). -/
def json_dumps (v : PyVal) : Except String String :=
  (pyToJson RequestDataSerializer.default v).map Json.render

mutual

/-- Modelled from the spec: the intended encoding of a request payload,
in which every embedded provenance document, at any nesting depth, is
replaced by its canonical JSON container and every JSON-native value is
kept as itself. -/
def specEncode : PyVal → Json
  | .pyNone => .null
  | .pyBool b => .bool b
  | .pyInt n => .num n
  | .pyString s => .str s
  | .pyList xs => .arr (specEncodeItems xs)
  | .pyDict fs => .obj (specEncodeFields fs)
  | .bundle b => b._encode_JSON_container

/-- Modelled from the spec: intended encoding of list items. -/
def specEncodeItems : PyItems → JsonList
  | .nil => .nil
  | .cons x t => .cons (specEncode x) (specEncodeItems t)

/-- Modelled from the spec: intended encoding of dict fields. -/
def specEncodeFields : PyFields → JsonFields
  | .nil => .nil
  | .cons k v t => .cons k (specEncode v) (specEncodeFields t)

end

mutual

/-- Whether a value contains no embedded provenance document. -/
def PyVal.noBundle : PyVal → Bool
  | .pyList xs => PyItems.noBundleItems xs
  | .pyDict fs => PyFields.noBundleFields fs
  | .bundle _ => false
  | _ => true

/-- Whether the items of a list contain no embedded document. -/
def PyItems.noBundleItems : PyItems → Bool
  | .nil => true
  | .cons x t => PyVal.noBundle x && PyItems.noBundleItems t

/-- Whether the fields of a dict contain no embedded document. -/
def PyFields.noBundleFields : PyFields → Bool
  | .nil => true
  | .cons _ v t => PyVal.noBundle v && PyFields.noBundleFields t

end

/-! ## The API client (wrapper.py lines 38-162)

The HTTP layer (`urllib2`) is modelled by an explicit transport
function: the wrapper builds a `RequestInfo` (the `urllib2.Request`
object) and the transport decides the outcome of `urlopen` — a response
body, an `HTTPError` with a status code, or a network-level `URLError`.
-/

/-- Module-level default service location (wrapper.py line 38). -/
def API_LOCATION : String := "https://provenance.ecs.soton.ac.uk/store/api/v0/"

/-- The error taxonomy surfaced to callers: the wrapper's `ApiError`
subclasses (wrapper.py lines 41-58) together with the propagated Python
exceptions (`urllib2.HTTPError` re-raised unchanged, `urllib2.URLError`,
`TypeError`, `ValueError`, `KeyError`). -/
inductive ApiError where
  | apiUnauthorizedError : ApiError
  | apiBadRequestError : ApiError
  | apiNotFoundError : ApiError
  | apiCannotConvertToTheRequestedFormat : ApiError
  | httpError (code : Nat) : ApiError
  | urlError (reason : String) : ApiError
  | typeError (msg : String) : ApiError
  | valueError (msg : String) : ApiError
  | keyError (key : String) : ApiError

/-- The `urllib2.Request` object handed to `urlopen` (wrapper.py lines
81-86): target URL, optional serialized body, headers, and effective
HTTP method. -/
structure RequestInfo where
  url : String
  body : Option String
  headers : List (String × String)
  method : String

/-- Outcome of `urllib2.urlopen` on a request, decided by the
environment: a successful response body, an `HTTPError` carrying a
status code, or a network-level `URLError`. -/
inductive TransportResult where
  | success (body : String) : TransportResult
  | httpError (code : Nat) : TransportResult
  | urlError (reason : String) : TransportResult

/-- The HTTP environment: what `urllib2.urlopen` would do on each
request. -/
def Transport : Type := RequestInfo → TransportResult

/-- Client configuration (wrapper.py lines 63-66): base URL (already
defaulted), optional username, optional key. -/
structure Api where
  api_location : String
  api_username : Option String
  api_key : Option String

/-- `Api.__init__` (wrapper.py lines 63-66): `api_location or
API_LOCATION` replaces a missing or falsy (empty) location by the
module default. -/
def Api.init (api_location api_username api_key : Option String) : Api :=
  Api.mk
    (match api_location with
     | some s => if s == "" then API_LOCATION else s
     | none => API_LOCATION)
    api_username
    api_key

/-- `Api._authorization_header` (wrapper.py lines 68-69):
`"ApiKey %s:%s" % (username, key)`; a `None` username or key is
interpolated as the text `None` by Python's `%s`. -/
def Api._authorization_header (api : Api) : String :=
  "ApiKey " ++ pyFmtS api.api_username ++ ":" ++ pyFmtS api.api_key

/-- Header assembly of `Api.request` (wrapper.py lines 72-78): `Accept`
and `Content-type` always; `Authorization` exactly when
`self.api_location and self.api_key` is truthy. -/
def Api.buildHeaders (api : Api) : List (String × String) :=
  [("Accept", "application/json"), ("Content-type", "application/json")]
    ++ (if api.api_location != "" && pyTruthyOptStr api.api_key then
          [("Authorization", api._authorization_header)]
        else [])

/-- Body selection of `Api.request` (wrapper.py lines 80-83): `if data:`
— only a truthy `data` is serialized and sent; `None` or a falsy value
sends no body.  A serialization failure is a raised `TypeError`. -/
def Api.serializeBody : Option PyVal → Except String (Option String)
  | some v => if pyTruthy v then (json_dumps v).map some else .ok none
  | none => .ok none

/-- Effective HTTP method of the built request (wrapper.py lines 85-86
and `urllib2` semantics): a truthy `method` argument overrides
`get_method`; otherwise `urllib2` uses POST when a body is present and
GET when not. -/
def effectiveMethod (method : Option String) (body : Option String) : String :=
  match method with
  | some m => if m == "" then (if body.isSome then "POST" else "GET") else m
  | none => if body.isSome then "POST" else "GET"

/-- Construction of the `urllib2.Request` by `Api.request` (wrapper.py
lines 72-86): headers, serialized body, target URL
`self.api_location + path`, and method override. -/
def Api.prepare (api : Api) (path : String) (data : Option PyVal)
    (method : Option String) : Except String RequestInfo :=
  match Api.serializeBody data with
  | .error m => .error m
  | .ok body =>
    .ok (RequestInfo.mk (api.api_location ++ path) body api.buildHeaders
          (effectiveMethod method body))

/-- Status-code-to-exception translation of `Api.request` (wrapper.py
lines 90-101): 401, 400, 404 and 422 map to the named errors; any other
`HTTPError` is re-raised unchanged. -/
def handleHTTPError (code : Nat) : ApiError :=
  if code == 401 then .apiUnauthorizedError
  else if code == 400 then .apiBadRequestError
  else if code == 404 then .apiNotFoundError
  else if code == 422 then .apiNotFoundError
  else .httpError code

/-- Possible return values of `Api.request` (wrapper.py lines 103-110):
the raw body string, a decoded JSON structure, or the boolean `True`. -/
inductive ReqResult where
  | str (s : String) : ReqResult
  | json (j : Json) : ReqResult
  | bool (b : Bool) : ReqResult

/-- `Api.request` (wrapper.py lines 71-110): builds the request, runs it
through the transport, maps error status codes, and post-processes the
body — the raw string when `raw`, `True` on an empty body, the decoded
JSON otherwise. -/
def Api.request (api : Api) (t : Transport) (path : String)
    (data : Option PyVal) (method : Option String) (raw : Bool) :
    Except ApiError ReqResult :=
  match api.prepare path data method with
  | .error m => .error (.typeError m)
  | .ok info =>
    match t info with
    | .httpError code => .error (handleHTTPError code)
    | .urlError reason => .error (.urlError reason)
    | .success body =>
      if body != "" || raw then
        if raw then .ok (.str body)
        else
          match json_loads body with
          | .ok j => .ok (.json j)
          | .error m => .error (.valueError m)
      else .ok (.bool true)

/-- Python subscript `response['id']` on a `request` return value
(wrapper.py line 122): only a decoded JSON object supports a string key;
a missing key raises `KeyError`; any other shape raises `TypeError`. -/
def ReqResult.getItem : ReqResult → String → Except ApiError Json
  | .json (.obj fields), key =>
    match JsonFields.lookup fields key with
    | some v => .ok v
    | none => .error (.keyError key)
  | .json _, _ => .error (.typeError "value is not subscriptable")
  | .str _, _ => .error (.typeError "string indices must be integers")
  | .bool _, _ => .error (.typeError "bool object is not subscriptable")

/-- `Api.submit_document` (wrapper.py lines 112-122): POSTs
`{content, public, rec_id}` to `documents/` and returns the `id` field
of the JSON response. -/
def Api.submit_document (api : Api) (t : Transport) (prov_document : ProvBundle)
    (identifier : String) (public : Bool) : Except ApiError Json :=
  match api.request t "documents/"
      (some (.pyDict (.cons "content" (.bundle prov_document)
        (.cons "public" (.pyBool public)
          (.cons "rec_id" (.pyString identifier) .nil))))) none false with
  | .error e => .error e
  | .ok response => response.getItem "id"

/-- URL construction of `Api.get_document` (wrapper.py lines 127-129):
`"documents/%d%s%s.%s" % (doc_id, "/flattened" if flattened else "",
view, extension)` with `extension = format if format is not None else
'json'` and the view segment only for the three enumerated views.  A
non-numeric `doc_id` makes the `%d` conversion raise before any request
is issued. -/
def Api.get_document_url (doc_id : PyVal) (format : Option String)
    (flattened : Bool) (view : Option String) : Except String String :=
  match pyFormatD doc_id with
  | .error m => .error m
  | .ok idStr =>
    .ok ("documents/" ++ idStr
      ++ (if flattened then "/flattened" else "")
      ++ (match view with
          | some v =>
            if v == "data" || v == "process" || v == "responsibility" then
              "/views/" ++ v
            else ""
          | none => "")
      ++ "." ++ (match format with | some f => f | none => "json"))

/-- Return value of `Api.get_document`: a decoded `ProvBundle` or, when
a format was requested, the raw body string. -/
inductive GetDocResult where
  | document (b : ProvBundle) : GetDocResult
  | raw (s : String) : GetDocResult

/-- `Api.get_document` (wrapper.py lines 124-139): issues a raw GET on
the constructed URL; with no `format` the body is decoded as a JSON
container into a `ProvBundle`, otherwise the raw response string is
returned. -/
def Api.get_document (api : Api) (t : Transport) (doc_id : PyVal)
    (format : Option String) (flattened : Bool) (view : Option String) :
    Except ApiError GetDocResult :=
  match Api.get_document_url doc_id format flattened view with
  | .error m => .error (.typeError m)
  | .ok url =>
    match api.request t url none none true with
    | .error e => .error e
    | .ok (.str response) =>
      match format with
      | none =>
        match json_loads response with
        | .ok j => .ok (.document (ProvBundle._decode_JSON_container j))
        | .error m => .error (.valueError m)
      | some _ => .ok (.raw response)
    | .ok _ => .error (.typeError "raw request returned a non-string")

/-- `Api.get_document_meta` (wrapper.py lines 141-145): GETs
`"documents/" + str(doc_id) + "/"` and returns the decoded response. -/
def Api.get_document_meta (api : Api) (t : Transport) (doc_id : PyVal) :
    Except ApiError ReqResult :=
  api.request t ("documents/" ++ doc_id.pyStr ++ "/") none none false

/-- `Api.add_bundle` (wrapper.py lines 147-156): POSTs
`{content, rec_id}` to `"documents/" + str(doc_id) + "/bundles/"` and
returns `True`. -/
def Api.add_bundle (api : Api) (t : Transport) (doc_id : PyVal)
    (prov_document : ProvBundle) (identifier : String) :
    Except ApiError Bool :=
  match api.request t ("documents/" ++ doc_id.pyStr ++ "/bundles/")
      (some (.pyDict (.cons "content" (.bundle prov_document)
        (.cons "rec_id" (.pyString identifier) .nil)))) none false with
  | .error e => .error e
  | .ok _ => .ok true

/-- `Api.delete_document` (wrapper.py lines 158-162): issues DELETE on
`"documents/" + str(doc_id) + "/"` and returns `True`. -/
def Api.delete_document (api : Api) (t : Transport) (doc_id : PyVal) :
    Except ApiError Bool :=
  match api.request t ("documents/" ++ doc_id.pyStr ++ "/") none
      (some "DELETE") false with
  | .error e => .error e
  | .ok _ => .ok true

/-! ## State-threaded view of the client

The source methods never assign to `self`; the state-threaded dispatcher
below makes that frame condition a provable statement: each call returns
its result together with the configuration the method ended with. -/

/-- One call to the client: the public operations and the `request`
primitive. -/
inductive ApiCall where
  | callRequest (path : String) (data : Option PyVal) (method : Option String)
      (raw : Bool) : ApiCall
  | callSubmitDocument (doc : ProvBundle) (identifier : String)
      (public : Bool) : ApiCall
  | callGetDocument (doc_id : PyVal) (format : Option String)
      (flattened : Bool) (view : Option String) : ApiCall
  | callGetDocumentMeta (doc_id : PyVal) : ApiCall
  | callAddBundle (doc_id : PyVal) (doc : ProvBundle)
      (identifier : String) : ApiCall
  | callDeleteDocument (doc_id : PyVal) : ApiCall

/-- Result of one client call. -/
inductive CallResult where
  | req (r : ReqResult) : CallResult
  | doc (d : GetDocResult) : CallResult
  | jsonVal (j : Json) : CallResult
  | flag (b : Bool) : CallResult

/-- State-threaded execution of one client call: the translation of each
method body finishes with the configuration it started with, because no
statement in the source assigns to `self.api_location`,
`self.api_username` or `self.api_key`. -/
def Api.runCall (api : Api) (t : Transport) : ApiCall → Except ApiError CallResult × Api
  | .callRequest path data method raw =>
    ((api.request t path data method raw).map .req, api)
  | .callSubmitDocument doc identifier public =>
    ((api.submit_document t doc identifier public).map .jsonVal, api)
  | .callGetDocument doc_id format flattened view =>
    ((api.get_document t doc_id format flattened view).map .doc, api)
  | .callGetDocumentMeta doc_id =>
    ((api.get_document_meta t doc_id).map .req, api)
  | .callAddBundle doc_id doc identifier =>
    ((api.add_bundle t doc_id doc identifier).map .flag, api)
  | .callDeleteDocument doc_id =>
    ((api.delete_document t doc_id).map .flag, api)

/-! ## Helper lemmas -/

theorem string_append_assoc (a b c : String) : a ++ b ++ c = a ++ (b ++ c) := by
  cases a with
  | mk la =>
    cases b with
    | mk lb =>
      cases c with
      | mk lc =>
        show String.mk (la ++ lb ++ lc) = String.mk (la ++ (lb ++ lc))
        rw [List.append_assoc]

theorem string_append_empty (a : String) : a ++ "" = a := by
  cases a with
  | mk la =>
    show String.mk (la ++ []) = String.mk la
    rw [List.append_nil]

theorem json_loads_empty : json_loads "" = .error "No JSON object could be decoded" := rfl

theorem prepare_ok_parts (api : Api) (path : String) (data : Option PyVal)
    (method : Option String) (info : RequestInfo)
    (hp : api.prepare path data method = .ok info) :
    info.headers = api.buildHeaders ∧ info.url = api.api_location ++ path := by
  unfold Api.prepare at hp
  cases hs : Api.serializeBody data with
  | error m => rw [hs] at hp; exact absurd hp (by simp)
  | ok body =>
    rw [hs] at hp
    simp only [Except.ok.injEq] at hp
    subst hp
    exact ⟨rfl, rfl⟩

theorem prepare_ok_body (api : Api) (path : String) (data : Option PyVal)
    (method : Option String) (info : RequestInfo) (body : Option String)
    (hs : Api.serializeBody data = .ok body)
    (hp : api.prepare path data method = .ok info) :
    info.body = body := by
  unfold Api.prepare at hp
  rw [hs] at hp
  simp only [Except.ok.injEq] at hp
  subst hp
  rfl

theorem request_of_httpError (api : Api) (t : Transport) (path : String)
    (data : Option PyVal) (method : Option String) (raw : Bool)
    (info : RequestInfo) (code : Nat)
    (hp : api.prepare path data method = .ok info)
    (ht : t info = .httpError code) :
    api.request t path data method raw = .error (handleHTTPError code) := by
  simp only [Api.request, hp, ht]

theorem request_of_success_raw (api : Api) (t : Transport) (path : String)
    (data : Option PyVal) (method : Option String)
    (info : RequestInfo) (body : String)
    (hp : api.prepare path data method = .ok info)
    (ht : t info = .success body) :
    api.request t path data method true = .ok (.str body) := by
  simp only [Api.request, hp, ht, Bool.or_true, if_true]

theorem request_of_success_empty (api : Api) (t : Transport) (path : String)
    (data : Option PyVal) (method : Option String)
    (info : RequestInfo)
    (hp : api.prepare path data method = .ok info)
    (ht : t info = .success "") :
    api.request t path data method false = .ok (.bool true) := by
  simp only [Api.request, hp, ht]
  simp

theorem request_of_success_parse (api : Api) (t : Transport) (path : String)
    (data : Option PyVal) (method : Option String)
    (info : RequestInfo) (body : String) (j : Json)
    (hp : api.prepare path data method = .ok info)
    (ht : t info = .success body)
    (hb : body ≠ "")
    (hj : json_loads body = .ok j) :
    api.request t path data method false = .ok (.json j) := by
  simp only [Api.request, hp, ht, hj]
  simp [hb]

mutual

theorem pyToJson_rds_spec : (v : PyVal) →
    pyToJson RequestDataSerializer.default v = .ok (specEncode v)
  | .pyNone => rfl
  | .pyBool _ => rfl
  | .pyInt _ => rfl
  | .pyString _ => rfl
  | .pyList xs => by
    simp only [pyToJson, pyToJsonItems_rds_spec xs, specEncode]
  | .pyDict fs => by
    simp only [pyToJson, pyToJsonFields_rds_spec fs, specEncode]
  | .bundle _ => rfl

theorem pyToJsonItems_rds_spec : (xs : PyItems) →
    pyToJsonItems RequestDataSerializer.default xs = .ok (specEncodeItems xs)
  | .nil => rfl
  | .cons x t => by
    simp only [pyToJsonItems, pyToJson_rds_spec x, pyToJsonItems_rds_spec t,
      specEncodeItems]

theorem pyToJsonFields_rds_spec : (fs : PyFields) →
    pyToJsonFields RequestDataSerializer.default fs = .ok (specEncodeFields fs)
  | .nil => rfl
  | .cons k v t => by
    simp only [pyToJsonFields, pyToJson_rds_spec v, pyToJsonFields_rds_spec t,
      specEncodeFields]

end

mutual

theorem pyToJson_base_spec : (v : PyVal) → PyVal.noBundle v = true →
    pyToJson JSONEncoder.default v = .ok (specEncode v)
  | .pyNone, _ => rfl
  | .pyBool _, _ => rfl
  | .pyInt _, _ => rfl
  | .pyString _, _ => rfl
  | .pyList xs, h => by
    simp only [PyVal.noBundle] at h
    simp only [pyToJson, pyToJsonItems_base_spec xs h, specEncode]
  | .pyDict fs, h => by
    simp only [PyVal.noBundle] at h
    simp only [pyToJson, pyToJsonFields_base_spec fs h, specEncode]
  | .bundle _, h => by cases h

theorem pyToJsonItems_base_spec : (xs : PyItems) → PyItems.noBundleItems xs = true →
    pyToJsonItems JSONEncoder.default xs = .ok (specEncodeItems xs)
  | .nil, _ => rfl
  | .cons x t, h => by
    simp only [PyItems.noBundleItems, Bool.and_eq_true] at h
    simp only [pyToJsonItems, pyToJson_base_spec x h.1,
      pyToJsonItems_base_spec t h.2, specEncodeItems]

theorem pyToJsonFields_base_spec : (fs : PyFields) → PyFields.noBundleFields fs = true →
    pyToJsonFields JSONEncoder.default fs = .ok (specEncodeFields fs)
  | .nil, _ => rfl
  | .cons k v t, h => by
    simp only [PyFields.noBundleFields, Bool.and_eq_true] at h
    simp only [pyToJsonFields, pyToJson_base_spec v h.1,
      pyToJsonFields_base_spec t h.2, specEncodeFields]

end

/-! ## Claims -/

/-- C1: for every call to `request` that receives a non-2xx HTTP
response, the error raised to the caller is determined solely by the
status code: 401 raises `ApiUnauthorizedError`, 400 raises
`ApiBadRequestError`, 404 and 422 raise `ApiNotFoundError`, and any
other status code is propagated unchanged as the original `HTTPError`,
never downgraded to one of the named kinds. -/
theorem C1_request_error_mapping (api : Api) (t : Transport) (path : String)
    (data : Option PyVal) (method : Option String) (raw : Bool)
    (info : RequestInfo) (code : Nat)
    (hp : api.prepare path data method = .ok info)
    (ht : t info = .httpError code) :
    api.request t path data method raw = .error (handleHTTPError code)
    ∧ handleHTTPError 401 = .apiUnauthorizedError
    ∧ handleHTTPError 400 = .apiBadRequestError
    ∧ handleHTTPError 404 = .apiNotFoundError
    ∧ handleHTTPError 422 = .apiNotFoundError
    ∧ (code ≠ 401 → code ≠ 400 → code ≠ 404 → code ≠ 422 →
        handleHTTPError code = .httpError code) := by
  refine ⟨request_of_httpError api t path data method raw info code hp ht,
    rfl, rfl, rfl, rfl, ?_⟩
  intro h1 h2 h3 h4
  simp [handleHTTPError, h1, h2, h3, h4]

/-- Witness for C1: a concrete client whose transport answers status
500 surfaces the original `HTTPError 500` unchanged. -/
theorem C1_request_error_mapping_witness :
    (Api.init (some "http://x/") none none).request (fun _ => .httpError 500)
      "documents/" none none false = .error (.httpError 500) :=
  (C1_request_error_mapping (Api.init (some "http://x/") none none)
    (fun _ => .httpError 500) "documents/" none none false
    (RequestInfo.mk ("http://x/" ++ "documents/") none
      [("Accept", "application/json"), ("Content-type", "application/json")]
      "GET")
    500 rfl rfl).1

/-- C2: for an integer document id, `get_document` builds the request
path as `documents/{id}[/flattened][/views/{view}].{ext}`, where `ext`
is `json` exactly when `format` is unset and is `format` otherwise, and
the view segment is appended exactly when the view is one of `data`,
`process`, `responsibility`; any other view value produces the same path
as no view at all. -/
theorem C2_get_document_path (n : Int) (format : Option String)
    (flattened : Bool) (view : Option String) :
    Api.get_document_url (.pyInt n) format flattened view =
      .ok ("documents/" ++ toString n
        ++ (if flattened then "/flattened" else "")
        ++ (match view with
            | some v =>
              if v == "data" || v == "process" || v == "responsibility" then
                "/views/" ++ v
              else ""
            | none => "")
        ++ "." ++ (match format with | some f => f | none => "json"))
    ∧ (view ≠ some "data" → view ≠ some "process" → view ≠ some "responsibility" →
        Api.get_document_url (.pyInt n) format flattened view =
          Api.get_document_url (.pyInt n) format flattened none) := by
  constructor
  · rfl
  · intro h1 h2 h3
    cases view with
    | none => rfl
    | some v =>
      have e1 : (v == "data") = false :=
        beq_eq_false_iff_ne.mpr (fun e => h1 (by rw [e]))
      have e2 : (v == "process") = false :=
        beq_eq_false_iff_ne.mpr (fun e => h2 (by rw [e]))
      have e3 : (v == "responsibility") = false :=
        beq_eq_false_iff_ne.mpr (fun e => h3 (by rw [e]))
      simp only [Api.get_document_url, pyFormatD, e1, e2, e3, Bool.or_false,
        Bool.false_eq_true, if_false]

/-- Witness for C2: the view value `bogus` produces the same path as no
view. -/
theorem C2_get_document_path_witness :
    Api.get_document_url (.pyInt 7) (some "provn") true (some "bogus") =
      Api.get_document_url (.pyInt 7) (some "provn") true none :=
  (C2_get_document_path 7 (some "provn") true (some "bogus")).2
    (by decide) (by decide) (by decide)

/-- C4: for every successful `request` call the returned value is
determined by the response body and the `raw` flag: with `raw` the
unparsed body string is returned; otherwise an empty body returns the
boolean `True` and a non-empty body is parsed as JSON and returned. -/
theorem C4_request_success_result (api : Api) (t : Transport) (path : String)
    (data : Option PyVal) (method : Option String)
    (info : RequestInfo) (body : String)
    (hp : api.prepare path data method = .ok info)
    (ht : t info = .success body) :
    api.request t path data method true = .ok (.str body)
    ∧ (body = "" → api.request t path data method false = .ok (.bool true))
    ∧ (∀ j : Json, body ≠ "" → json_loads body = .ok j →
        api.request t path data method false = .ok (.json j)) := by
  refine ⟨request_of_success_raw api t path data method info body hp ht, ?_, ?_⟩
  · intro hb
    subst hb
    exact request_of_success_empty api t path data method info hp ht
  · intro j hb hj
    exact request_of_success_parse api t path data method info body j hp ht hb hj

/-- Witness for C4: a concrete non-raw request whose transport answers
with a JSON object body returns the decoded object. -/
theorem C4_request_success_result_witness :
    (Api.init (some "http://x/") none none).request
      (fun _ => .success "\x7b\"id\": 4\x7d") "documents/55/" none none false =
      .ok (.json (.obj (.cons "id" (.num 4) .nil))) :=
  (C4_request_success_result (Api.init (some "http://x/") none none)
    (fun _ => .success "\x7b\"id\": 4\x7d") "documents/55/" none none
    (RequestInfo.mk ("http://x/" ++ "documents/55/") none
      [("Accept", "application/json"), ("Content-type", "application/json")]
      "GET")
    "\x7b\"id\": 4\x7d" rfl rfl).2.2
    (.obj (.cons "id" (.num 4) .nil)) (by decide) rfl

/-- C3: for every successful `get_document` call, when `format` is unset
the response body is decoded from the JSON container format and
returned as a typed `ProvBundle`, never as a string; when `format` is
set the raw response body string is returned verbatim with no
decoding. -/
theorem C3_get_document_result (api : Api) (t : Transport) (n : Int)
    (fl : Bool) (view : Option String) :
    (∀ (url : String) (info : RequestInfo) (body : String) (j : Json),
      Api.get_document_url (.pyInt n) none fl view = .ok url →
      api.prepare url none none = .ok info →
      t info = .success body →
      json_loads body = .ok j →
      api.get_document t (.pyInt n) none fl view =
        .ok (.document (ProvBundle._decode_JSON_container j)))
    ∧ (∀ (f url : String) (info : RequestInfo) (body : String),
      Api.get_document_url (.pyInt n) (some f) fl view = .ok url →
      api.prepare url none none = .ok info →
      t info = .success body →
      api.get_document t (.pyInt n) (some f) fl view = .ok (.raw body)) := by
  constructor
  · intro url info body j hu hp ht hj
    have hr := request_of_success_raw api t url none none info body hp ht
    simp only [Api.get_document, hu, hr, hj]
  · intro f url info body hu hp ht
    have hr := request_of_success_raw api t url none none info body hp ht
    simp only [Api.get_document, hu, hr]

/-- Witness for C3: fetching document 5 with no format against a
transport answering an empty JSON container returns a decoded
`ProvBundle`, not a string. -/
theorem C3_get_document_result_witness :
    (Api.init (some "http://x/") none none).get_document
      (fun _ => .success "\x7b\x7d") (.pyInt 5) none false none =
      .ok (.document (ProvBundle.mk (.obj .nil))) :=
  ((C3_get_document_result (Api.init (some "http://x/") none none)
    (fun _ => .success "\x7b\x7d") 5 false none).1
    "documents/5.json"
    (RequestInfo.mk ("http://x/" ++ "documents/5.json") none
      [("Accept", "application/json"), ("Content-type", "application/json")]
      "GET")
    "\x7b\x7d" (.obj .nil) rfl rfl rfl rfl)

/-- C5: `submit_document` sends to the documents collection endpoint
`documents/` a body that is exactly the mapping
`{content: document, public: public, rec_id: identifier}` (the embedded
document encoded as its JSON container), consults the transport only on
that request, and on success returns the value of the `id` field of the
JSON response body. -/
theorem C5_submit_document (api : Api) (t t' : Transport) (b : ProvBundle)
    (identifier : String) (public : Bool) (info : RequestInfo)
    (hp : api.prepare "documents/"
      (some (.pyDict (.cons "content" (.bundle b)
        (.cons "public" (.pyBool public)
          (.cons "rec_id" (.pyString identifier) .nil))))) none = .ok info) :
    info.url = api.api_location ++ "documents/"
    ∧ info.body = some (Json.render (.obj (.cons "content" b._encode_JSON_container
        (.cons "public" (.bool public) (.cons "rec_id" (.str identifier) .nil)))))
    ∧ (t info = t' info →
        api.submit_document t b identifier public =
          api.submit_document t' b identifier public)
    ∧ (∀ (body : String) (fields : JsonFields) (v : Json),
        t info = .success body →
        json_loads body = .ok (.obj fields) →
        JsonFields.lookup fields "id" = some v →
        api.submit_document t b identifier public = .ok v) := by
  refine ⟨(prepare_ok_parts _ _ _ _ _ hp).2, ?_, ?_, ?_⟩
  · have hs : Api.serializeBody (some (.pyDict (.cons "content" (.bundle b)
        (.cons "public" (.pyBool public)
          (.cons "rec_id" (.pyString identifier) .nil))))) =
        .ok (some (Json.render (.obj (.cons "content" b._encode_JSON_container
          (.cons "public" (.bool public)
            (.cons "rec_id" (.str identifier) .nil)))))) := rfl
    exact prepare_ok_body _ _ _ _ _ _ hs hp
  · intro hteq
    simp only [Api.submit_document, Api.request, hp, hteq]
  · intro body fields v ht hj hl
    have hb : body ≠ "" := by
      intro e
      rw [e, json_loads_empty] at hj
      cases hj
    have hr := request_of_success_parse api t "documents/"
      (some (.pyDict (.cons "content" (.bundle b)
        (.cons "public" (.pyBool public)
          (.cons "rec_id" (.pyString identifier) .nil))))) none info body
      (.obj fields) hp ht hb hj
    simp only [Api.submit_document, hr, ReqResult.getItem, hl]

/-- Witness for C5: a concrete submission against a transport answering
a response with an `id` field returns that id. -/
theorem C5_submit_document_witness :
    (Api.init (some "http://x/") none none).submit_document
      (fun _ => .success "\x7b\"id\": 4\x7d") (ProvBundle.mk .null) "i" false =
      .ok (.num 4) :=
  ((C5_submit_document (Api.init (some "http://x/") none none)
    (fun _ => .success "\x7b\"id\": 4\x7d") (fun _ => .success "\x7b\"id\": 4\x7d")
    (ProvBundle.mk .null) "i" false
    (RequestInfo.mk ("http://x/" ++ "documents/")
      (some (Json.render (.obj (.cons "content" Json.null
        (.cons "public" (.bool false) (.cons "rec_id" (.str "i") .nil))))))
      [("Accept", "application/json"), ("Content-type", "application/json")]
      "POST")
    rfl).2.2.2 "\x7b\"id\": 4\x7d" (.cons "id" (.num 4) .nil) (.num 4) rfl rfl rfl)

/-- C6: every request carries the headers `Accept: application/json` and
`Content-type: application/json`, and carries
`Authorization: ApiKey {username}:{key}` exactly when both the base URL
and the key are configured (truthy) — the username, even when empty or
unset, is still interpolated into the header value; when the key is not
configured no `Authorization` header is sent. -/
theorem C6_request_headers (api : Api) (path : String) (data : Option PyVal)
    (method : Option String) (info : RequestInfo)
    (hp : api.prepare path data method = .ok info) :
    ("Accept", "application/json") ∈ info.headers
    ∧ ("Content-type", "application/json") ∈ info.headers
    ∧ ((api.api_location != "" && pyTruthyOptStr api.api_key) = true →
        ("Authorization",
          "ApiKey " ++ pyFmtS api.api_username ++ ":" ++ pyFmtS api.api_key)
          ∈ info.headers)
    ∧ ((api.api_location != "" && pyTruthyOptStr api.api_key) = false →
        ∀ v : String, ("Authorization", v) ∉ info.headers) := by
  have hh : info.headers = api.buildHeaders := (prepare_ok_parts _ _ _ _ _ hp).1
  rw [hh]
  unfold Api.buildHeaders Api._authorization_header
  refine ⟨?_, ?_, ?_, ?_⟩
  · split <;> simp
  · split <;> simp
  · intro hcond
    simp [hcond]
  · intro hcond v
    simp [hcond]

/-- Witness for C6: a client configured with username `u` and key `k`
sends `Authorization: ApiKey u:k`. -/
theorem C6_request_headers_witness :
    ("Authorization", "ApiKey u:k") ∈
      (RequestInfo.mk ("http://x/" ++ "p") none
        [("Accept", "application/json"), ("Content-type", "application/json"),
         ("Authorization", "ApiKey u:k")] "GET").headers :=
  (C6_request_headers (Api.init (some "http://x/") (some "u") (some "k"))
    "p" none none
    (RequestInfo.mk ("http://x/" ++ "p") none
      [("Accept", "application/json"), ("Content-type", "application/json"),
       ("Authorization", "ApiKey u:k")] "GET")
    rfl).2.2.1 rfl

/-- Counterexample for C7 as stated: the empty dict is a provided but
falsy `data` argument; `if data:` rejects it, so the built request
carries no body at all, although its JSON serialization is the
(non-empty) text of an empty object. -/
theorem C7_request_body_counterexample :
    (Api.init (some "http://x/") none none).prepare "documents/"
      (some (.pyDict .nil)) none =
      .ok (RequestInfo.mk ("http://x/" ++ "documents/") none
        [("Accept", "application/json"), ("Content-type", "application/json")]
        "GET")
    ∧ json_dumps (.pyDict .nil) = .ok "\x7b\x7d" := ⟨rfl, rfl⟩

/-- C7 (amended): for every call to `request` in which a truthy
(non-empty, non-zero) `data` argument is provided, the data is
serialized to JSON with the custom encoder and sent as the request
body; when `data` is absent or falsy, the request carries no body. -/
theorem C7_request_body (api : Api) (path : String) (data : Option PyVal)
    (method : Option String) (info : RequestInfo)
    (hp : api.prepare path data method = .ok info) :
    (∀ (v : PyVal) (s : String), data = some v → pyTruthy v = true →
      json_dumps v = .ok s → info.body = some s)
    ∧ (pyTruthyOptVal data = false → info.body = none) := by
  constructor
  · intro v s hv htr hd
    subst hv
    have hs : Api.serializeBody (some v) = .ok (some s) := by
      simp [Api.serializeBody, htr, hd, Except.map]
    exact prepare_ok_body _ _ _ _ _ _ hs hp
  · intro hf
    have hs : Api.serializeBody data = .ok none := by
      cases data with
      | none => rfl
      | some v =>
        simp only [pyTruthyOptVal] at hf
        simp [Api.serializeBody, hf]
    exact prepare_ok_body _ _ _ _ _ _ hs hp

/-- Witness for C7 (amended): a truthy one-field dict is serialized and
sent as the body of the built request. -/
theorem C7_request_body_witness :
    (RequestInfo.mk ("http://x/" ++ "p") (some "\x7b\"a\": 1\x7d")
      [("Accept", "application/json"), ("Content-type", "application/json")]
      "POST").body = some "\x7b\"a\": 1\x7d" :=
  (C7_request_body (Api.init (some "http://x/") none none) "p"
    (some (.pyDict (.cons "a" (.pyInt 1) .nil))) none
    (RequestInfo.mk ("http://x/" ++ "p") (some "\x7b\"a\": 1\x7d")
      [("Accept", "application/json"), ("Content-type", "application/json")]
      "POST")
    rfl).1 (.pyDict (.cons "a" (.pyInt 1) .nil)) "\x7b\"a\": 1\x7d" rfl rfl rfl

/-- C8: when serializing a request payload, every embedded `ProvBundle`
object, at any nesting depth, is encoded as its canonical JSON container
representation rather than raising a serialization error, and every
JSON-native value is encoded by the standard JSON rules (those of the
base encoder, which agrees on every bundle-free value). -/
theorem C8_serializer (v : PyVal) (b : ProvBundle) :
    pyToJson RequestDataSerializer.default v = .ok (specEncode v)
    ∧ specEncode (.bundle b) = b._encode_JSON_container
    ∧ (PyVal.noBundle v = true →
        pyToJson JSONEncoder.default v = .ok (specEncode v)) :=
  ⟨pyToJson_rds_spec v, rfl, pyToJson_base_spec v⟩

/-- Witness for C8: a concrete bundle-free list and a concrete bundle. -/
theorem C8_serializer_witness :
    pyToJson RequestDataSerializer.default (.pyList (.cons (.pyInt 1) .nil)) =
      .ok (specEncode (.pyList (.cons (.pyInt 1) .nil)))
    ∧ specEncode (.bundle (ProvBundle.mk .null)) = Json.null
    ∧ pyToJson JSONEncoder.default (.pyList (.cons (.pyInt 1) .nil)) =
        .ok (specEncode (.pyList (.cons (.pyInt 1) .nil))) :=
  ⟨(C8_serializer (.pyList (.cons (.pyInt 1) .nil)) (ProvBundle.mk .null)).1,
   (C8_serializer (.pyList (.cons (.pyInt 1) .nil)) (ProvBundle.mk .null)).2.1,
   (C8_serializer (.pyList (.cons (.pyInt 1) .nil)) (ProvBundle.mk .null)).2.2 rfl⟩

/-- C9: every operation of the client (`submit_document`, `get_document`,
`get_document_meta`, `add_bundle`, `delete_document`, `request`) leaves
the three configuration fields unchanged: after any call, each field
equals its value at construction. -/
theorem C9_configuration_immutable (api : Api) (t : Transport) (c : ApiCall) :
    ((api.runCall t c).2).api_location = api.api_location
    ∧ ((api.runCall t c).2).api_username = api.api_username
    ∧ ((api.runCall t c).2).api_key = api.api_key := by
  cases c <;> exact ⟨rfl, rfl, rfl⟩

/-- Counterexample for C10 as stated: the Python boolean `True` is not
an integer value of the model, yet `get_document` does not fail on it —
Python's `%d` accepts booleans (integers in Python) and formats `True`
as `1` — while the stringifying operations would address
`documents/True/`, a different resource. -/
theorem C10_doc_id_counterexample :
    Api.get_document_url (.pyBool true) none false none = .ok "documents/1.json"
    ∧ PyVal.pyStr (.pyBool true) = "True" := ⟨rfl, rfl⟩

/-- C10 (amended): the public operations disagree on the accepted type
of the document id: `get_document` formats the id with the `%d` integer
conversion and therefore fails, before issuing any request, on every id
that `%d` rejects (strings, `None`, lists, dicts, documents) — Python
booleans, being integers, are accepted and formatted as `1`/`0` — while
`get_document_meta`, `add_bundle` and `delete_document` stringify any id
value and issue the request; for every integer id, all four operations
address the same `documents/{id}` resource. -/
theorem C10_doc_id_types (api : Api) (t : Transport) (id : PyVal)
    (doc : ProvBundle) (identifier : String) (format : Option String)
    (fl : Bool) (view : Option String) (n : Int) (m : String)
    (hm : pyFormatD id = .error m) :
    api.get_document t id format fl view = .error (.typeError m)
    ∧ api.get_document_meta t id =
        api.request t ("documents/" ++ id.pyStr ++ "/") none none false
    ∧ api.add_bundle t id doc identifier =
        (match api.request t ("documents/" ++ id.pyStr ++ "/bundles/")
            (some (.pyDict (.cons "content" (.bundle doc)
              (.cons "rec_id" (.pyString identifier) .nil)))) none false with
         | .error e => .error e
         | .ok _ => .ok true)
    ∧ api.delete_document t id =
        (match api.request t ("documents/" ++ id.pyStr ++ "/") none
            (some "DELETE") false with
         | .error e => .error e
         | .ok _ => .ok true)
    ∧ Api.get_document_url (.pyInt n) none false none =
        .ok ("documents/" ++ toString n ++ ".json")
    ∧ PyVal.pyStr (.pyInt n) = toString n := by
  refine ⟨?_, rfl, rfl, rfl, ?_, rfl⟩
  · simp only [Api.get_document, Api.get_document_url, hm]
  · simp only [Api.get_document_url, pyFormatD]
    rw [show ("documents/" ++ toString n ++ (if false then "/flattened" else "")
        ++ "" ++ "." ++ "json") =
          "documents/" ++ toString n ++ "" ++ "" ++ "." ++ "json" from rfl,
      string_append_empty, string_append_empty,
      string_append_assoc ("documents/" ++ toString n) "." "json"]
    rfl

/-- Witness for C10 (amended): a string id makes `get_document` fail
with the `%d` conversion error before any transport activity. -/
theorem C10_doc_id_types_witness :
    (Api.init (some "http://x/") none none).get_document
      (fun _ => .success "") (.pyString "abc") none false none =
      .error (.typeError "%d format: a number is required, not str") :=
  (C10_doc_id_types (Api.init (some "http://x/") none none)
    (fun _ => .success "") (.pyString "abc") (ProvBundle.mk .null) "i"
    none false none 9 "%d format: a number is required, not str" rfl).1
